import Mathlib

/-!
Shallow embedding of `react-use-dependency` (src/unnamed/part_001, the current
`index.ts`): a React dependency-injection helper with a provider holding a
string-keyed mapping and three resolver hooks (`useDependency`, `useComponent`,
`useHook`).

JavaScript runtime values are modelled by `JSValue`; object reference identity
(what `Object.is` compares and what React uses for `useEffect` dependency
arrays) is modelled by an explicit object identifier `oid` carried by objects
and promises.  Functions are opaque identifiers whose call behaviour is given
by an environment `FunTab`; the one closure the library itself creates
(`() => null`, the `useComponent` placeholder) gets its own constructor
`vnoop` with its defined behaviour (it returns `null`).  Thrown JavaScript
errors are modelled by `Except`: `JSError.errorThrown msg` is `throw new
Error(msg)` from library code, `JSError.typeErr` a runtime `TypeError` (e.g.
`'load' in null`), and user callables may produce any `JSError` through the
environment.

React's render/commit model is embedded per hook instance: a render phase
computes the hook's return value from the current `HookState` without running
effects; on successful render the commit phase runs the `useEffect` callback
when the dependency array `[dependency]` changed under `Object.is`; a settled
promise later applies its `.then` callback to the state (`settleOne`).
-/

inductive JSValue where
  | vnull
  | vundefined
  | vbool (b : Bool)
  | vnum (n : Int)
  | vstr (s : String)
  | vobj (oid : Nat) (fields : List (String × JSValue))
  | vfun (fid : Nat)
  | vnoop
  | vpromise (oid : Nat) (settled : JSValue)

/-- JavaScript `typeof`. `typeof null` is `"object"`; promises are objects;
the placeholder closure is a function. -/
def jsTypeof : JSValue → String
  | .vnull => "object"
  | .vundefined => "undefined"
  | .vbool _ => "boolean"
  | .vnum _ => "number"
  | .vstr _ => "string"
  | .vobj _ _ => "object"
  | .vfun _ => "function"
  | .vnoop => "function"
  | .vpromise _ _ => "object"

/-- JavaScript truthiness: `false`, `0`, the empty string, `null` and
`undefined` are falsy; objects, functions and promises are truthy. -/
def truthy : JSValue → Bool
  | .vnull => false
  | .vundefined => false
  | .vbool b => b
  | .vnum n => n != 0
  | .vstr s => s != ""
  | .vobj _ _ => true
  | .vfun _ => true
  | .vnoop => true
  | .vpromise _ _ => true

/-- JavaScript `a || b`. -/
def jsOr (a b : JSValue) : JSValue :=
  if truthy a then a else b

/-- `Object.is`, the comparison React applies to `useEffect` dependency
arrays: primitives structurally, objects / functions / promises by reference
(their identifier).  `vnoop` models a closure freshly allocated at each
render, so two occurrences are never the same reference. -/
def jsIs : JSValue → JSValue → Bool
  | .vnull, .vnull => true
  | .vundefined, .vundefined => true
  | .vbool a, .vbool b => a == b
  | .vnum a, .vnum b => a == b
  | .vstr a, .vstr b => a == b
  | .vobj i _, .vobj j _ => i == j
  | .vfun i, .vfun j => i == j
  | .vpromise i _, .vpromise j _ => i == j
  | _, _ => false

/-- `value instanceof Promise`. -/
def instanceOfPromise : JSValue → Bool
  | .vpromise _ _ => true
  | _ => false

inductive JSError where
  | typeErr
  | errorThrown (message : String)
  | userErr (v : JSValue)

/-- JavaScript `prop in value`: property lookup on objects, `TypeError` on
`null`, `undefined` and primitives (the `in` operator requires an object on
the right).  Our function values and promises carry no own properties. -/
def jsHasProp (p : String) : JSValue → Except JSError Bool
  | .vobj _ fields => .ok (fields.any (fun kv => kv.1 == p))
  | .vfun _ => .ok false
  | .vnoop => .ok false
  | .vpromise _ _ => .ok false
  | _ => .error .typeErr

/-- JavaScript property read `value.p`: `undefined` when absent, `TypeError`
on `null` and `undefined`. -/
def jsGetProp (p : String) : JSValue → Except JSError JSValue
  | .vobj _ fields =>
      .ok (((fields.find? (fun kv => kv.1 == p)).map Prod.snd).getD .vundefined)
  | .vnull => .error .typeErr
  | .vundefined => .error .typeErr
  | _ => .ok .vundefined

/-- Calling a value: user functions behave as the environment says, the
library's placeholder closure returns `null`, calling a non-function is a
`TypeError`. -/
abbrev FunTab := Nat → List JSValue → Except JSError JSValue

def callFunction (ftab : FunTab) : JSValue → List JSValue → Except JSError JSValue
  | .vfun fid, args => ftab fid args
  | .vnoop, _ => .ok .vnull
  | _, _ => .error .typeErr

/-- `isDependencyConfig` (part_001 lines 118-120):
`typeof value === 'object' && 'load' in value`. -/
def isDependencyConfig (value : JSValue) : Except JSError Bool :=
  if jsTypeof value == "object" then jsHasProp "load" value
  else .ok false

abbrev DependencyMap := List (String × JSValue)

def hasKey (dependencies : DependencyMap) (name : String) : Bool :=
  dependencies.any (fun kv => kv.1 == name)

def mapGet (dependencies : DependencyMap) (name : String) : JSValue :=
  ((dependencies.find? (fun kv => kv.1 == name)).map Prod.snd).getD .vundefined

/-- The code block of the `UnsetDependency` message showing how to register
the missing key (after `ts-dedent`). -/
def unsetRemediation (name : String) : String :=
  "```\nimport React from \x27react\x27\nimport ReactDOM from \x27react-dom\x27\nimport \x7b DependencyProvider \x7d from \x27react-use-dependency\x27\n\nconst dependencies = \x7b\n  " ++ name ++ ": /* something */\n\x7d\n\nReactDOM.render(\n  <React.StrictMode>\n    <DependencyProvider value=\x7bdependencies\x7d>\n      <App />\n    </DependencyProvider>\n  </React.StrictMode>,\n  document.getElementById(\x27root\x27)\n)\n```"

/-- The dedented message of the error thrown by `useDependencyInContext`
(part_001 lines 54-82) for a key missing from the mapping. -/
def unsetDependencyMessage (apiFunction name : String) : String :=
  "`" ++ apiFunction ++ "` was called with a dependency key which is not set: \"" ++ name ++ "\"\n\nTo fix, pass a dependency for the key \"" ++ name ++ "\" into the DependencyProvider\nhigher order component in your app setup. For example:\n\n" ++ unsetRemediation name

/-- The dedented message of the error thrown by `useHook` (part_001 lines
32-49) when resolution produced `null`. -/
def missingDefaultValueMessage (name : String) : String :=
  "`useHook` resolved a dependency which has no `default` value.\n\nThis causes an error because it\x27s generally easier to specify a default value\nin the dependency configuration than it is to handle unexpected `null` values\nin components.\n\nTo fix, specify a `default` value for the dependency. For example:\n\n```\nconst dependencies = \x7b\n  " ++ name ++ ": \x7b\n    load: async () => import(\x27./hooks/example\x27),\n    default: () => (\x7b loading: true \x7d),\n  \x7d\n\x7d\n```"

/-- `useDependencyInContext` (part_001 lines 54-85): read the ambient
mapping, throw when the key is absent, return the entry otherwise. -/
def useDependencyInContext (dependencies : DependencyMap) (name apiFunction : String) :
    Except JSError JSValue :=
  if hasKey dependencies name then .ok (mapGet dependencies name)
  else .error (.errorThrown (unsetDependencyMessage apiFunction name))

/-- Per-hook-instance React state for `useResolvedDependency`: the `loaded`
`useState` cell (initially `null`), the previous `useEffect` dependency array
entry (`none` before the first commit), the values in-flight promises will
settle to (in invocation order), and the log of `load` functions invoked. -/
structure HookState where
  loaded : JSValue
  prevDep : Option JSValue
  pending : List JSValue
  loadLog : List JSValue

def HookState.init : HookState := ⟨.vnull, none, [], []⟩

/-- Whether React re-runs the effect: first commit, or `[dependency]` differs
from the previous array under `Object.is`. -/
def depsChanged (st : HookState) (dependency : JSValue) : Bool :=
  match st.prevDep with
  | none => true
  | some prev => !jsIs prev dependency

/-- Render-phase part of `useResolvedDependency` (part_001 lines 87-116
minus the effect): classify the entry, and return
`loaded || dynamic.default || null` for a descriptor, the entry itself
otherwise.  Runs before any effect, reading the current state. -/
def useResolvedDependencyRender (dependency : JSValue) (st : HookState) :
    Except JSError JSValue :=
  match isDependencyConfig dependency with
  | .error e => .error e
  | .ok true =>
      match jsGetProp "default" dependency with
      | .error e => .error e
      | .ok d => .ok (jsOr (jsOr st.loaded d) .vnull)
  | .ok false => .ok dependency

/-- Effect part of `useResolvedDependency` (part_001 lines 94-109), run at
commit when the dependency array changed: for a descriptor invoke `load()`;
a synchronous result is stored in `loaded` at once, a promise is left in
flight.  React records the new dependency array either way. -/
def useResolvedDependencyEffect (ftab : FunTab) (dependency : JSValue) (st : HookState) :
    Except JSError HookState :=
  if depsChanged st dependency then
    match isDependencyConfig dependency with
    | .error e => .error e
    | .ok false => .ok { st with prevDep := some dependency }
    | .ok true =>
        match jsGetProp "load" dependency with
        | .error e => .error e
        | .ok loadFn =>
            match callFunction ftab loadFn [] with
            | .error e => .error e
            | .ok value =>
                if instanceOfPromise value then
                  .ok { st with prevDep := some dependency,
                                loadLog := st.loadLog ++ [loadFn],
                                pending := st.pending ++
                                  [match value with
                                   | .vpromise _ settled => settled
                                   | v => v] }
                else
                  .ok { st with prevDep := some dependency,
                                loadLog := st.loadLog ++ [loadFn],
                                loaded := value }
  else .ok st

/-- The `.then` callback attached to a promise returned by `load()`
(part_001 lines 99-105): unwrap a module-style `\x7b default: T \x7d` wrapper,
otherwise keep the settled value. -/
def promiseThen (result : JSValue) : Except JSError JSValue :=
  if jsTypeof result == "object" then
    match jsHasProp "default" result with
    | .error e => .error e
    | .ok true => jsGetProp "default" result
    | .ok false => .ok result
  else .ok result

/-- Settlement of the oldest in-flight promise: its `.then` callback stores
the (possibly unwrapped) value in `loaded`. -/
def settleOne (st : HookState) : Except JSError HookState :=
  match st.pending with
  | [] => .ok st
  | raw :: rest =>
      match promiseThen raw with
      | .error e => .error e
      | .ok v => .ok { st with loaded := v, pending := rest }

/-- Render phase of `useDependency` (part_001 lines 16-19). -/
def useDependencyRender (dependencies : DependencyMap) (name : String) (st : HookState) :
    Except JSError JSValue :=
  match useDependencyInContext dependencies name "useDependency" with
  | .error e => .error e
  | .ok dependency => useResolvedDependencyRender dependency st

/-- Render phase of `useComponent` (part_001 lines 21-26):
`resolved || (() => null)`. -/
def useComponentRender (dependencies : DependencyMap) (name : String) (st : HookState) :
    Except JSError JSValue :=
  match useDependencyInContext dependencies name "useComponent" with
  | .error e => .error e
  | .ok dependency =>
      match useResolvedDependencyRender dependency st with
      | .error e => .error e
      | .ok resolved => .ok (jsOr resolved .vnoop)

/-- Render phase of `useHook` (part_001 lines 28-52): throw when resolution
produced `null`, otherwise call the resolved value with the forwarded
arguments, its result or thrown error passed through unchanged. -/
def useHookRender (ftab : FunTab) (dependencies : DependencyMap) (name : String)
    (args : List JSValue) (st : HookState) : Except JSError JSValue :=
  match useDependencyInContext dependencies name "useHook" with
  | .error e => .error e
  | .ok dependency =>
      match useResolvedDependencyRender dependency st with
      | .error e => .error e
      | .ok resolved =>
          match resolved with
          | .vnull => .error (.errorThrown (missingDefaultValueMessage name))
          | v => callFunction ftab v args

/-- Commit phase shared by the three hooks: re-read the entry (unchanged,
the mapping is ambient and immutable) and run the effect. -/
def commitPhase (ftab : FunTab) (dependencies : DependencyMap) (name apiFunction : String)
    (st : HookState) : Except JSError HookState :=
  match useDependencyInContext dependencies name apiFunction with
  | .error e => .error e
  | .ok dependency => useResolvedDependencyEffect ftab dependency st

/-- One full render+commit cycle of a component calling `useDependency`. -/
def useDependencyCycle (ftab : FunTab) (dependencies : DependencyMap) (name : String)
    (st : HookState) : Except JSError (JSValue × HookState) :=
  match useDependencyRender dependencies name st with
  | .error e => .error e
  | .ok v =>
      match commitPhase ftab dependencies name "useDependency" st with
      | .error e => .error e
      | .ok st2 => .ok (v, st2)

/-- One full render+commit cycle of a component calling `useComponent`. -/
def useComponentCycle (ftab : FunTab) (dependencies : DependencyMap) (name : String)
    (st : HookState) : Except JSError (JSValue × HookState) :=
  match useComponentRender dependencies name st with
  | .error e => .error e
  | .ok v =>
      match commitPhase ftab dependencies name "useComponent" st with
      | .error e => .error e
      | .ok st2 => .ok (v, st2)

/-- One full render+commit cycle of a component calling `useHook`. -/
def useHookCycle (ftab : FunTab) (dependencies : DependencyMap) (name : String)
    (args : List JSValue) (st : HookState) : Except JSError (JSValue × HookState) :=
  match useHookRender ftab dependencies name args st with
  | .error e => .error e
  | .ok v =>
      match commitPhase ftab dependencies name "useHook" st with
      | .error e => .error e
      | .ok st2 => .ok (v, st2)

/-- A request to one of the three resolver entry points. -/
inductive ResolverCall where
  | depCall (name : String)
  | compCall (name : String)
  | hookCall (name : String) (args : List JSValue)

def ResolverCall.keyName : ResolverCall → String
  | .depCall n => n
  | .compCall n => n
  | .hookCall n _ => n

def runCall (ftab : FunTab) (dependencies : DependencyMap) :
    ResolverCall → HookState → Except JSError (JSValue × HookState)
  | .depCall n, st => useDependencyCycle ftab dependencies n st
  | .compCall n, st => useComponentCycle ftab dependencies n st
  | .hookCall n args, st => useHookCycle ftab dependencies n args st

/-- A sequence of resolver requests threaded through the hook state. -/
def runCalls (ftab : FunTab) (dependencies : DependencyMap) :
    List ResolverCall → HookState → Except JSError HookState
  | [], st => .ok st
  | c :: cs, st =>
      match runCall ftab dependencies c st with
      | .error e => .error e
      | .ok (_, st2) => runCalls ftab dependencies cs st2

/-- Claim C3: for every key absent from the ambient mapping, each of the three
resolver entry points throws the `UnsetDependency` error synchronously, and
its message names the entry point that was called, the offending key, and
contains the remediation code block showing how to register the dependency in
the provider's mapping. -/
theorem unset_key_all_entry_points_throw
    (ftab : FunTab) (m : DependencyMap) (name : String) (args : List JSValue)
    (st : HookState) (h : hasKey m name = false) :
    useDependencyCycle ftab m name st =
        .error (.errorThrown (unsetDependencyMessage "useDependency" name)) ∧
    useComponentCycle ftab m name st =
        .error (.errorThrown (unsetDependencyMessage "useComponent" name)) ∧
    useHookCycle ftab m name args st =
        .error (.errorThrown (unsetDependencyMessage "useHook" name)) ∧
    (∀ apiFunction, ∃ pre post,
      unsetDependencyMessage apiFunction name = pre ++ apiFunction ++ post) ∧
    (∀ apiFunction, ∃ pre post,
      unsetDependencyMessage apiFunction name = pre ++ name ++ post) ∧
    (∀ apiFunction, ∃ pre,
      unsetDependencyMessage apiFunction name = pre ++ unsetRemediation name) ∧
    (∃ a b, unsetRemediation name = a ++ name ++ b) := by
  refine ⟨?_, ?_, ?_, ?_, ?_, ?_, ?_⟩
  · simp [useDependencyCycle, useDependencyRender, useDependencyInContext, h]
  · simp [useComponentCycle, useComponentRender, useDependencyInContext, h]
  · simp [useHookCycle, useHookRender, useDependencyInContext, h]
  · intro apiFunction
    exact ⟨"`",
      "` was called with a dependency key which is not set: \"" ++ name ++ "\"\n\nTo fix, pass a dependency for the key \"" ++ name ++ "\" into the DependencyProvider\nhigher order component in your app setup. For example:\n\n" ++ unsetRemediation name,
      by simp [unsetDependencyMessage, String.append_assoc]⟩
  · intro apiFunction
    exact ⟨"`" ++ apiFunction ++ "` was called with a dependency key which is not set: \"",
      "\"\n\nTo fix, pass a dependency for the key \"" ++ name ++ "\" into the DependencyProvider\nhigher order component in your app setup. For example:\n\n" ++ unsetRemediation name,
      by simp [unsetDependencyMessage, String.append_assoc]⟩
  · intro apiFunction
    exact ⟨"`" ++ apiFunction ++ "` was called with a dependency key which is not set: \"" ++ name ++ "\"\n\nTo fix, pass a dependency for the key \"" ++ name ++ "\" into the DependencyProvider\nhigher order component in your app setup. For example:\n\n",
      rfl⟩
  · exact ⟨"```\nimport React from \x27react\x27\nimport ReactDOM from \x27react-dom\x27\nimport \x7b DependencyProvider \x7d from \x27react-use-dependency\x27\n\nconst dependencies = \x7b\n  ",
      ": /* something */\n\x7d\n\nReactDOM.render(\n  <React.StrictMode>\n    <DependencyProvider value=\x7bdependencies\x7d>\n      <App />\n    </DependencyProvider>\n  </React.StrictMode>,\n  document.getElementById(\x27root\x27)\n)\n```",
      rfl⟩

/-- Witness for C3 at the empty mapping and key `x`. -/
theorem unset_key_all_entry_points_throw_witness :
    hasKey [] "x" = false ∧
    useDependencyCycle (fun _ _ => .ok .vnull) [] "x" HookState.init =
      .error (.errorThrown (unsetDependencyMessage "useDependency" "x")) :=
  ⟨rfl, (unset_key_all_entry_points_throw (fun _ _ => .ok .vnull) [] "x" []
    HookState.init rfl).1⟩

/-- Claim C4: a key mapped to a direct value, i.e. one the descriptor shape
check classifies as a non-descriptor, is returned synchronously and unchanged
on every call, whatever the hook's cached state; the effect stores nothing
beyond React's record of the dependency array. -/
theorem direct_value_returned_unchanged
    (ftab : FunTab) (m : DependencyMap) (name : String) (dep : JSValue)
    (st : HookState)
    (hk : hasKey m name = true) (hdep : mapGet m name = dep)
    (hcfg : isDependencyConfig dep = .ok false) :
    useDependencyCycle ftab m name st =
      .ok (dep, if depsChanged st dep then { st with prevDep := some dep } else st) := by
  simp only [useDependencyCycle, useDependencyRender, useDependencyInContext, hk,
    if_true, hdep, useResolvedDependencyRender, hcfg, commitPhase,
    useResolvedDependencyEffect]
  cases hch : depsChanged st dep <;> simp [hch]

/-- Witness for C4 at a mapping holding a direct number. -/
theorem direct_value_returned_unchanged_witness :
    isDependencyConfig (.vnum 5) = .ok false ∧
    useDependencyCycle (fun _ _ => .ok .vnull) [("x", .vnum 5)] "x" HookState.init =
      .ok (.vnum 5,
        if depsChanged HookState.init (.vnum 5) then
          { HookState.init with prevDep := some (.vnum 5) }
        else HookState.init) :=
  ⟨rfl, direct_value_returned_unchanged (fun _ _ => .ok .vnull) [("x", .vnum 5)]
    "x" (.vnum 5) HookState.init rfl rfl rfl⟩

/-- Claim C10: a key mapped directly to `null` makes every resolver entry
point throw a `TypeError` at the descriptor shape check (`typeof null` is
`"object"`, so `'load' in null` is evaluated and throws), rather than
returning `null` or raising the library's own `Error`. -/
theorem null_entry_throws_type_error
    (ftab : FunTab) (m : DependencyMap) (name : String) (args : List JSValue)
    (st : HookState)
    (hk : hasKey m name = true) (hnull : mapGet m name = .vnull) :
    useDependencyCycle ftab m name st = .error .typeErr ∧
    useComponentCycle ftab m name st = .error .typeErr ∧
    useHookCycle ftab m name args st = .error .typeErr ∧
    (∀ msg, JSError.typeErr ≠ .errorThrown msg) := by
  refine ⟨?_, ?_, ?_, by simp⟩
  · simp [useDependencyCycle, useDependencyRender, useDependencyInContext, hk,
      hnull, useResolvedDependencyRender, isDependencyConfig, jsTypeof, jsHasProp]
  · simp [useComponentCycle, useComponentRender, useDependencyInContext, hk,
      hnull, useResolvedDependencyRender, isDependencyConfig, jsTypeof, jsHasProp]
  · simp [useHookCycle, useHookRender, useDependencyInContext, hk,
      hnull, useResolvedDependencyRender, isDependencyConfig, jsTypeof, jsHasProp]

/-- Witness for C10 at the mapping sending `x` to `null`. -/
theorem null_entry_throws_type_error_witness :
    hasKey [("x", JSValue.vnull)] "x" = true ∧
    useDependencyCycle (fun _ _ => .ok .vnull) [("x", .vnull)] "x" HookState.init =
      .error .typeErr :=
  ⟨rfl, (null_entry_throws_type_error (fun _ _ => .ok .vnull) [("x", .vnull)]
    "x" [] HookState.init rfl rfl).1⟩

/-- Claim C8: for a lazy descriptor the hook's value is
`loaded || default || null`: a falsy loaded state (including a legitimately
resolved `0`, empty string or `false`) is replaced by the descriptor's
`default`, a falsy default by `null`; hence the rendered value is always
either truthy or the null sentinel, and a falsy `load` result is never
observable as the resolved result. -/
theorem lazy_render_falsy_coalescing
    (dep d : JSValue) (st : HookState)
    (hcfg : isDependencyConfig dep = .ok true)
    (hdef : jsGetProp "default" dep = .ok d) :
    useResolvedDependencyRender dep st =
      .ok (if truthy st.loaded then st.loaded else if truthy d then d else .vnull) ∧
    (truthy st.loaded = false → truthy d = false →
      useResolvedDependencyRender dep st = .ok .vnull) ∧
    (∀ v, useResolvedDependencyRender dep st = .ok v →
      truthy v = true ∨ v = .vnull) := by
  have h1 : useResolvedDependencyRender dep st =
      .ok (if truthy st.loaded then st.loaded else if truthy d then d else .vnull) := by
    simp only [useResolvedDependencyRender, hcfg, hdef, jsOr]
    by_cases ha : truthy st.loaded <;> by_cases hb : truthy d <;> simp [ha, hb]
  refine ⟨h1, ?_, ?_⟩
  · intro ha hb; rw [h1]; simp [ha, hb]
  · intro v hv
    rw [h1] at hv
    simp only [Except.ok.injEq] at hv
    subst hv
    by_cases ha : truthy st.loaded
    · left; simp [ha]
    · by_cases hb : truthy d
      · left; simp [ha, hb]
      · right; simp [ha, hb]

/-- Witness for C8 at a descriptor with default `3` and an empty loaded
state. -/
theorem lazy_render_falsy_coalescing_witness :
    isDependencyConfig (.vobj 0 [("load", .vfun 0), ("default", .vnum 3)]) = .ok true ∧
    useResolvedDependencyRender (.vobj 0 [("load", .vfun 0), ("default", .vnum 3)])
        HookState.init =
      .ok (if truthy HookState.init.loaded then HookState.init.loaded
           else if truthy (.vnum 3) then .vnum 3 else .vnull) :=
  ⟨rfl, (lazy_render_falsy_coalescing
    (.vobj 0 [("load", .vfun 0), ("default", .vnum 3)]) (.vnum 3)
    HookState.init rfl rfl).1⟩

/-- Claim C5: `useHook` throws the `MissingDefaultValue` error, whose message
names the key, exactly when the underlying resolution produced the null
sentinel; for any non-null resolved value it returns `resolved(...args)`
unchanged — in particular an error raised by the callable itself propagates
untouched. -/
theorem useHook_null_throws_missing_default
    (ftab : FunTab) (m : DependencyMap) (name : String) (args : List JSValue)
    (dep resolved : JSValue) (st : HookState)
    (hdep : useDependencyInContext m name "useHook" = .ok dep)
    (hres : useResolvedDependencyRender dep st = .ok resolved) :
    (resolved = .vnull →
      useHookRender ftab m name args st =
        .error (.errorThrown (missingDefaultValueMessage name))) ∧
    (resolved ≠ .vnull →
      useHookRender ftab m name args st = callFunction ftab resolved args) ∧
    (∀ e, resolved ≠ .vnull → callFunction ftab resolved args = .error e →
      useHookRender ftab m name args st = .error e) ∧
    (∃ pre post, missingDefaultValueMessage name = pre ++ name ++ post) := by
  have hren : useHookRender ftab m name args st =
      match resolved with
      | .vnull => .error (.errorThrown (missingDefaultValueMessage name))
      | v => callFunction ftab v args := by
    simp only [useHookRender, hdep, hres]
    cases resolved <;> rfl
  have hcall : resolved ≠ .vnull →
      useHookRender ftab m name args st = callFunction ftab resolved args := by
    intro h
    rw [hren]
    cases resolved <;> first | exact absurd rfl h | rfl
  refine ⟨?_, hcall, ?_, ?_⟩
  · intro h; subst h; simpa using hren
  · intro e h hc; rw [hcall h, hc]
  · exact ⟨"`useHook` resolved a dependency which has no `default` value.\n\nThis causes an error because it\x27s generally easier to specify a default value\nin the dependency configuration than it is to handle unexpected `null` values\nin components.\n\nTo fix, specify a `default` value for the dependency. For example:\n\n```\nconst dependencies = \x7b\n  ",
      ": \x7b\n    load: async () => import(\x27./hooks/example\x27),\n    default: () => (\x7b loading: true \x7d),\n  \x7d\n\x7d\n```", rfl⟩

/-- Witness for C5: a direct callable resolves non-null and its result is
returned unchanged. -/
theorem useHook_null_throws_missing_default_witness :
    useDependencyInContext [("h", JSValue.vfun 3)] "h" "useHook" = .ok (.vfun 3) ∧
    useHookRender (fun _ args => .ok (.vnum args.length)) [("h", .vfun 3)] "h"
        [.vnum 1, .vnum 2] HookState.init =
      callFunction (fun _ args => .ok (.vnum args.length)) (.vfun 3)
        [.vnum 1, .vnum 2] :=
  ⟨rfl, (useHook_null_throws_missing_default (fun _ args => .ok (.vnum args.length))
    [("h", .vfun 3)] "h" [.vnum 1, .vnum 2] (.vfun 3) (.vfun 3) HookState.init
    rfl rfl).2.1 (by simp)⟩

/-- Claim C6 (amended): `useComponent` never returns the null sentinel: when
resolution produced `null` (pending async load with no default) it returns
the no-op placeholder closure, which when invoked renders nothing (returns
`null`); a truthy resolved value is returned as is.  (A falsy non-null
resolved value is also replaced by the placeholder — see the
counterexample.) -/
theorem useComponent_placeholder_never_null
    (m : DependencyMap) (name : String) (dep resolved : JSValue) (st : HookState)
    (hdep : useDependencyInContext m name "useComponent" = .ok dep)
    (hres : useResolvedDependencyRender dep st = .ok resolved) :
    useComponentRender m name st = .ok (jsOr resolved .vnoop) ∧
    jsOr resolved .vnoop ≠ .vnull ∧
    (resolved = .vnull → useComponentRender m name st = .ok .vnoop) ∧
    (∀ ftab args, callFunction ftab .vnoop args = .ok .vnull) ∧
    (truthy resolved = true → useComponentRender m name st = .ok resolved) := by
  have h1 : useComponentRender m name st = .ok (jsOr resolved .vnoop) := by
    simp [useComponentRender, hdep, hres]
  refine ⟨h1, ?_, ?_, ?_, ?_⟩
  · unfold jsOr
    split
    · rename_i ht
      intro he
      rw [he] at ht
      simp [truthy] at ht
    · simp
  · intro h; rw [h1, h]; rfl
  · intro ftab args; rfl
  · intro ht; rw [h1]; simp [jsOr, ht]

/-- Counterexample for C6 as frozen: the direct value `false` is fully
resolved, yet `useComponent` returns the placeholder rather than the resolved
value, because the placeholder substitution tests truthiness, not the null
sentinel. -/
theorem useComponent_falsy_resolved_counterexample :
    useDependencyRender [("x", .vbool false)] "x" HookState.init = .ok (.vbool false) ∧
    useComponentRender [("x", .vbool false)] "x" HookState.init = .ok .vnoop ∧
    JSValue.vnoop ≠ .vbool false :=
  ⟨rfl, rfl, by simp⟩

/-- Witness for C6: a pending async load with no default resolves to `null`
and `useComponent` hands back the placeholder. -/
theorem useComponent_placeholder_never_null_witness :
    useResolvedDependencyRender (.vobj 0 [("load", .vfun 1)]) HookState.init =
      .ok .vnull ∧
    useComponentRender [("C", .vobj 0 [("load", .vfun 1)])] "C" HookState.init =
      .ok .vnoop ∧
    callFunction (fun _ _ => .ok .vnull) .vnoop [] = .ok .vnull :=
  ⟨rfl,
   (useComponent_placeholder_never_null [("C", .vobj 0 [("load", .vfun 1)])] "C"
     (.vobj 0 [("load", .vfun 1)]) .vnull HookState.init rfl rfl).2.2.1 rfl,
   (useComponent_placeholder_never_null [("C", .vobj 0 [("load", .vfun 1)])] "C"
     (.vobj 0 [("load", .vfun 1)]) .vnull HookState.init rfl rfl).2.2.2.1
     (fun _ _ => .ok .vnull) []⟩

/-- Claim C1 (amended): for a lazy descriptor whose `load()` returns a
promise, the first rendered value is the configured `default` when that
default is truthy and the null sentinel otherwise (in particular when no
default is configured, the read yields `undefined`); after the promise
settles, the `.then` callback stores the settled value — unwrapped through a
module-style `default` property when the settled value is an object carrying
one — and the next render returns it provided it is truthy (a falsy settled
value is coalesced away, claim C8). -/
theorem async_load_default_then_settled
    (ftab : FunTab) (m : DependencyMap) (name : String)
    (oid : Nat) (fields : List (String × JSValue)) (fid pid : Nat)
    (raw w d : JSValue)
    (hk : hasKey m name = true)
    (hD : mapGet m name = .vobj oid fields)
    (hcfg : isDependencyConfig (.vobj oid fields) = .ok true)
    (hload : jsGetProp "load" (.vobj oid fields) = .ok (.vfun fid))
    (hdef : jsGetProp "default" (.vobj oid fields) = .ok d)
    (hprom : ftab fid [] = .ok (.vpromise pid raw))
    (hthen : promiseThen raw = .ok w)
    (htw : truthy w = true) :
    useDependencyCycle ftab m name HookState.init =
      .ok (jsOr d .vnull, ⟨.vnull, some (.vobj oid fields), [raw], [.vfun fid]⟩) ∧
    settleOne ⟨.vnull, some (.vobj oid fields), [raw], [.vfun fid]⟩ =
      .ok ⟨w, some (.vobj oid fields), [], [.vfun fid]⟩ ∧
    useDependencyCycle ftab m name ⟨w, some (.vobj oid fields), [], [.vfun fid]⟩ =
      .ok (w, ⟨w, some (.vobj oid fields), [], [.vfun fid]⟩) ∧
    (∀ r, (jsTypeof r == "object") = false → promiseThen r = .ok r) ∧
    (∀ o fs, jsHasProp "default" (.vobj o fs) = .ok true →
      promiseThen (.vobj o fs) = jsGetProp "default" (.vobj o fs)) := by
  refine ⟨?_, ?_, ?_, ?_, ?_⟩
  · simp [useDependencyCycle, useDependencyRender, useDependencyInContext, hk, hD,
      useResolvedDependencyRender, hcfg, hdef, commitPhase,
      useResolvedDependencyEffect, depsChanged, HookState.init, hload, callFunction,
      hprom, instanceOfPromise, jsOr, truthy]
  · simp [settleOne, hthen]
  · simp [useDependencyCycle, useDependencyRender, useDependencyInContext, hk, hD,
      useResolvedDependencyRender, hcfg, hdef, commitPhase,
      useResolvedDependencyEffect, depsChanged, jsIs, jsOr, htw]
  · intro r hr; simp [promiseThen, hr]
  · intro o fs hfs; simp [promiseThen, jsTypeof, hfs]

/-- Counterexample for C1 as frozen: a descriptor configures the falsy
default `0`, yet the first rendered value is the null sentinel, not the
configured default, because the render falsy-coalesces `loaded || default ||
null`. -/
theorem async_falsy_default_counterexample :
    jsGetProp "default" (.vobj 0 [("load", .vfun 0), ("default", .vnum 0)]) =
      .ok (.vnum 0) ∧
    useDependencyCycle (fun _ _ => .ok (.vpromise 1 (.vnum 7)))
        [("x", .vobj 0 [("load", .vfun 0), ("default", .vnum 0)])] "x"
        HookState.init =
      .ok (.vnull,
        ⟨.vnull, some (.vobj 0 [("load", .vfun 0), ("default", .vnum 0)]),
          [.vnum 7], [.vfun 0]⟩) ∧
    JSValue.vnull ≠ .vnum 0 :=
  ⟨rfl, rfl, by simp⟩

/-- Witness for C1 at a module-style wrapper settling over default `3`. -/
theorem async_load_default_then_settled_witness :
    promiseThen (.vobj 5 [("default", .vnum 11)]) = .ok (.vnum 11) ∧
    useDependencyCycle
        (fun _ _ => .ok (.vpromise 1 (.vobj 5 [("default", .vnum 11)])))
        [("x", .vobj 0 [("load", .vfun 0), ("default", .vnum 3)])] "x"
        HookState.init =
      .ok (jsOr (.vnum 3) .vnull,
        ⟨.vnull, some (.vobj 0 [("load", .vfun 0), ("default", .vnum 3)]),
          [.vobj 5 [("default", .vnum 11)]], [.vfun 0]⟩) ∧
    settleOne
        ⟨.vnull, some (.vobj 0 [("load", .vfun 0), ("default", .vnum 3)]),
          [.vobj 5 [("default", .vnum 11)]], [.vfun 0]⟩ =
      .ok ⟨.vnum 11, some (.vobj 0 [("load", .vfun 0), ("default", .vnum 3)]),
        [], [.vfun 0]⟩ :=
  ⟨rfl,
   (async_load_default_then_settled
     (fun _ _ => .ok (.vpromise 1 (.vobj 5 [("default", .vnum 11)])))
     [("x", .vobj 0 [("load", .vfun 0), ("default", .vnum 3)])] "x" 0
     [("load", .vfun 0), ("default", .vnum 3)] 0 1
     (.vobj 5 [("default", .vnum 11)]) (.vnum 11) (.vnum 3)
     rfl rfl rfl rfl rfl rfl rfl rfl).1,
   (async_load_default_then_settled
     (fun _ _ => .ok (.vpromise 1 (.vobj 5 [("default", .vnum 11)])))
     [("x", .vobj 0 [("load", .vfun 0), ("default", .vnum 3)])] "x" 0
     [("load", .vfun 0), ("default", .vnum 3)] 0 1
     (.vobj 5 [("default", .vnum 11)]) (.vnum 11) (.vnum 3)
     rfl rfl rfl rfl rfl rfl rfl rfl).2.1⟩

/-- Claim C2 (amended): for a lazy descriptor whose `load()` returns
synchronously, the synchronous result is stored at the first commit and is
the rendered value from the next render on provided it is truthy (a falsy
result is coalesced to default/null, claim C8); `load` runs exactly once per
descriptor identity — a re-render with the same descriptor object skips the
effect, while a mapping whose descriptor object identity differs triggers a
fresh load. -/
theorem sync_load_once_per_descriptor_identity
    (ftab : FunTab) (m m2 : DependencyMap) (name : String)
    (oid oid2 : Nat) (fields fields2 : List (String × JSValue)) (fid fid2 : Nat)
    (v v2 d d2 : JSValue)
    (hk : hasKey m name = true)
    (hD : mapGet m name = .vobj oid fields)
    (hcfg : isDependencyConfig (.vobj oid fields) = .ok true)
    (hload : jsGetProp "load" (.vobj oid fields) = .ok (.vfun fid))
    (hdef : jsGetProp "default" (.vobj oid fields) = .ok d)
    (hsync : ftab fid [] = .ok v)
    (hnp : instanceOfPromise v = false)
    (htru : truthy v = true)
    (hk2 : hasKey m2 name = true)
    (hD2 : mapGet m2 name = .vobj oid2 fields2)
    (hcfg2 : isDependencyConfig (.vobj oid2 fields2) = .ok true)
    (hload2 : jsGetProp "load" (.vobj oid2 fields2) = .ok (.vfun fid2))
    (hdef2 : jsGetProp "default" (.vobj oid2 fields2) = .ok d2)
    (hsync2 : ftab fid2 [] = .ok v2)
    (hnp2 : instanceOfPromise v2 = false)
    (hne : (oid == oid2) = false) :
    useDependencyCycle ftab m name HookState.init =
      .ok (jsOr d .vnull, ⟨v, some (.vobj oid fields), [], [.vfun fid]⟩) ∧
    useDependencyCycle ftab m name ⟨v, some (.vobj oid fields), [], [.vfun fid]⟩ =
      .ok (v, ⟨v, some (.vobj oid fields), [], [.vfun fid]⟩) ∧
    useDependencyCycle ftab m2 name ⟨v, some (.vobj oid fields), [], [.vfun fid]⟩ =
      .ok (v, ⟨v2, some (.vobj oid2 fields2), [], [.vfun fid, .vfun fid2]⟩) := by
  refine ⟨?_, ?_, ?_⟩
  · simp [useDependencyCycle, useDependencyRender, useDependencyInContext, hk, hD,
      useResolvedDependencyRender, hcfg, hdef, commitPhase,
      useResolvedDependencyEffect, depsChanged, HookState.init, hload, callFunction,
      hsync, hnp, jsOr, truthy]
  · simp [useDependencyCycle, useDependencyRender, useDependencyInContext, hk, hD,
      useResolvedDependencyRender, hcfg, hdef, commitPhase,
      useResolvedDependencyEffect, depsChanged, jsIs, jsOr, htru]
  · simp [useDependencyCycle, useDependencyRender, useDependencyInContext, hk2, hD2,
      useResolvedDependencyRender, hcfg2, hdef2, commitPhase,
      useResolvedDependencyEffect, depsChanged, jsIs, hne, hload2, callFunction,
      hsync2, hnp2, jsOr, htru]

/-- Counterexample for C2 as frozen: a synchronous `load` returning the falsy
`0` is stored, but the value the hook returns after the resolution cycle is
the null sentinel, not `0`. -/
theorem sync_falsy_load_counterexample :
    useDependencyCycle (fun _ _ => .ok (.vnum 0)) [("x", .vobj 0 [("load", .vfun 0)])]
        "x" HookState.init =
      .ok (.vnull, ⟨.vnum 0, some (.vobj 0 [("load", .vfun 0)]), [], [.vfun 0]⟩) ∧
    useDependencyCycle (fun _ _ => .ok (.vnum 0)) [("x", .vobj 0 [("load", .vfun 0)])]
        "x" ⟨.vnum 0, some (.vobj 0 [("load", .vfun 0)]), [], [.vfun 0]⟩ =
      .ok (.vnull, ⟨.vnum 0, some (.vobj 0 [("load", .vfun 0)]), [], [.vfun 0]⟩) ∧
    JSValue.vnull ≠ .vnum 0 :=
  ⟨rfl, rfl, by simp⟩

/-- Witness for C2: a synchronous load of `7` under one descriptor identity,
then a swap to a second identity loading `9`. -/
theorem sync_load_once_per_descriptor_identity_witness :
    useDependencyCycle
        (fun fid _ => if fid == 0 then .ok (.vnum 7) else .ok (.vnum 9))
        [("x", .vobj 0 [("load", .vfun 0)])] "x"
        ⟨.vnum 7, some (.vobj 0 [("load", .vfun 0)]), [], [.vfun 0]⟩ =
      .ok (.vnum 7, ⟨.vnum 7, some (.vobj 0 [("load", .vfun 0)]), [], [.vfun 0]⟩) ∧
    useDependencyCycle
        (fun fid _ => if fid == 0 then .ok (.vnum 7) else .ok (.vnum 9))
        [("x", .vobj 1 [("load", .vfun 1)])] "x"
        ⟨.vnum 7, some (.vobj 0 [("load", .vfun 0)]), [], [.vfun 0]⟩ =
      .ok (.vnum 7,
        ⟨.vnum 9, some (.vobj 1 [("load", .vfun 1)]), [], [.vfun 0, .vfun 1]⟩) :=
  ⟨(sync_load_once_per_descriptor_identity
      (fun fid _ => if fid == 0 then .ok (.vnum 7) else .ok (.vnum 9))
      [("x", .vobj 0 [("load", .vfun 0)])] [("x", .vobj 1 [("load", .vfun 1)])] "x"
      0 1 [("load", .vfun 0)] [("load", .vfun 1)] 0 1
      (.vnum 7) (.vnum 9) .vundefined .vundefined
      rfl rfl rfl rfl rfl rfl rfl rfl rfl rfl rfl rfl rfl rfl rfl rfl).2.1,
   (sync_load_once_per_descriptor_identity
      (fun fid _ => if fid == 0 then .ok (.vnum 7) else .ok (.vnum 9))
      [("x", .vobj 0 [("load", .vfun 0)])] [("x", .vobj 1 [("load", .vfun 1)])] "x"
      0 1 [("load", .vfun 0)] [("load", .vfun 1)] 0 1
      (.vnum 7) (.vnum 9) .vundefined .vundefined
      rfl rfl rfl rfl rfl rfl rfl rfl rfl rfl rfl rfl rfl rfl rfl rfl).2.2⟩

/-- Claim C9: a mapping entry is classified as a lazy descriptor exactly when
its `typeof` is `"object"` and it has a `load` property; consequently a plain
object registered as a direct value that happens to contain a `load` key is
treated as a descriptor: its `load` member is invoked at the first commit,
the synchronous result becomes the loaded state, the rendered value follows
the descriptor path `loaded || default || null` (the object itself is not
handed back), and a truthy result is returned on the next render. -/
theorem object_with_load_key_is_descriptor
    (ftab : FunTab) (m : DependencyMap) (name : String)
    (oid : Nat) (fields : List (String × JSValue)) (fid : Nat) (v d : JSValue)
    (hk : hasKey m name = true)
    (hD : mapGet m name = .vobj oid fields)
    (hhas : jsHasProp "load" (.vobj oid fields) = .ok true)
    (hload : jsGetProp "load" (.vobj oid fields) = .ok (.vfun fid))
    (hdef : jsGetProp "default" (.vobj oid fields) = .ok d)
    (hsync : ftab fid [] = .ok v)
    (hnp : instanceOfPromise v = false) :
    (∀ u, isDependencyConfig u = .ok true ↔
      (jsTypeof u = "object" ∧ jsHasProp "load" u = .ok true)) ∧
    useDependencyCycle ftab m name HookState.init =
      .ok (jsOr d .vnull, ⟨v, some (.vobj oid fields), [], [.vfun fid]⟩) ∧
    (truthy v = true →
      useDependencyCycle ftab m name ⟨v, some (.vobj oid fields), [], [.vfun fid]⟩ =
        .ok (v, ⟨v, some (.vobj oid fields), [], [.vfun fid]⟩)) := by
  have hcfg : isDependencyConfig (.vobj oid fields) = .ok true := by
    simp [isDependencyConfig, jsTypeof, hhas]
  refine ⟨?_, ?_, ?_⟩
  · intro u
    cases u <;> simp [isDependencyConfig, jsTypeof, jsHasProp]
  · simp [useDependencyCycle, useDependencyRender, useDependencyInContext, hk, hD,
      useResolvedDependencyRender, hcfg, hdef, commitPhase,
      useResolvedDependencyEffect, depsChanged, HookState.init, hload, callFunction,
      hsync, hnp, jsOr, truthy]
  · intro htru
    simp [useDependencyCycle, useDependencyRender, useDependencyInContext, hk, hD,
      useResolvedDependencyRender, hcfg, hdef, commitPhase,
      useResolvedDependencyEffect, depsChanged, jsIs, jsOr, htru]

/-- Witness for C9 at `\x7b load: f, other: 1 \x7d` registered as a plain value. -/
theorem object_with_load_key_is_descriptor_witness :
    jsHasProp "load" (.vobj 0 [("load", .vfun 0), ("other", .vnum 1)]) = .ok true ∧
    useDependencyCycle (fun _ _ => .ok (.vnum 7))
        [("x", .vobj 0 [("load", .vfun 0), ("other", .vnum 1)])] "x"
        HookState.init =
      .ok (jsOr .vundefined .vnull,
        ⟨.vnum 7, some (.vobj 0 [("load", .vfun 0), ("other", .vnum 1)]), [],
          [.vfun 0]⟩) :=
  ⟨rfl, (object_with_load_key_is_descriptor (fun _ _ => .ok (.vnum 7))
    [("x", .vobj 0 [("load", .vfun 0), ("other", .vnum 1)])] "x" 0
    [("load", .vfun 0), ("other", .vnum 1)] 0 (.vnum 7) .vundefined
    rfl rfl rfl rfl rfl rfl rfl).2.1⟩

/-- Provenance of logged loads through one effect run: any function in the
log was already there, or is the `load` member of the dependency the effect
ran for. -/
theorem useResolvedDependencyEffect_loadLog
    (ftab : FunTab) (dep : JSValue) (st st' : HookState)
    (h : useResolvedDependencyEffect ftab dep st = .ok st') :
    ∀ f ∈ st'.loadLog, f ∈ st.loadLog ∨ jsGetProp "load" dep = .ok f := by
  intro f hf
  unfold useResolvedDependencyEffect at h
  by_cases hch : depsChanged st dep = true
  · rw [if_pos hch] at h
    cases hcfg : isDependencyConfig dep with
    | error e =>
      simp only [hcfg] at h
      exact Except.noConfusion h
    | ok b =>
      cases b with
      | false =>
        simp only [hcfg, Except.ok.injEq] at h
        subst h
        exact Or.inl hf
      | true =>
        simp only [hcfg] at h
        cases hload : jsGetProp "load" dep with
        | error e =>
          simp only [hload] at h
          exact Except.noConfusion h
        | ok loadFn =>
          simp only [hload] at h
          cases hcall : callFunction ftab loadFn [] with
          | error e =>
            simp only [hcall] at h
            exact Except.noConfusion h
          | ok value =>
            simp only [hcall] at h
            by_cases hip : instanceOfPromise value = true
            · rw [if_pos hip] at h
              simp only [Except.ok.injEq] at h
              subst h
              rcases List.mem_append.mp hf with h1 | h1
              · exact Or.inl h1
              · rw [List.mem_singleton.mp h1]
                exact Or.inr rfl
            · rw [if_neg hip] at h
              simp only [Except.ok.injEq] at h
              subst h
              rcases List.mem_append.mp hf with h1 | h1
              · exact Or.inl h1
              · rw [List.mem_singleton.mp h1]
                exact Or.inr rfl
  · rw [if_neg hch] at h
    injection h with h2
    subst h2
    exact Or.inl hf

/-- Provenance of logged loads through one commit: new entries are the `load`
member of the mapping entry of the committed key. -/
theorem commitPhase_loadLog
    (ftab : FunTab) (m : DependencyMap) (name api : String) (st st' : HookState)
    (h : commitPhase ftab m name api st = .ok st') :
    ∀ f ∈ st'.loadLog, f ∈ st.loadLog ∨
      (hasKey m name = true ∧ jsGetProp "load" (mapGet m name) = .ok f) := by
  intro f hf
  unfold commitPhase useDependencyInContext at h
  by_cases hk : hasKey m name = true
  · rw [if_pos hk] at h
    have h2 : useResolvedDependencyEffect ftab (mapGet m name) st = .ok st' := h
    rcases useResolvedDependencyEffect_loadLog ftab (mapGet m name) st st' h2 f hf
      with h3 | h3
    · exact Or.inl h3
    · exact Or.inr ⟨hk, h3⟩
  · rw [if_neg hk] at h
    exact Except.noConfusion h

/-- A successful `useDependency` cycle contains a successful commit. -/
theorem useDependencyCycle_commit
    (ftab : FunTab) (m : DependencyMap) (name : String) (st : HookState)
    (v : JSValue) (st' : HookState)
    (h : useDependencyCycle ftab m name st = .ok (v, st')) :
    commitPhase ftab m name "useDependency" st = .ok st' := by
  unfold useDependencyCycle at h
  cases hr : useDependencyRender m name st with
  | error e => rw [hr] at h; exact Except.noConfusion h
  | ok rv =>
    rw [hr] at h
    cases hcp : commitPhase ftab m name "useDependency" st with
    | error e => rw [hcp] at h; exact Except.noConfusion h
    | ok st2 =>
      rw [hcp] at h
      simp only [Except.ok.injEq, Prod.mk.injEq] at h
      rw [← h.2]

/-- A successful `useComponent` cycle contains a successful commit. -/
theorem useComponentCycle_commit
    (ftab : FunTab) (m : DependencyMap) (name : String) (st : HookState)
    (v : JSValue) (st' : HookState)
    (h : useComponentCycle ftab m name st = .ok (v, st')) :
    commitPhase ftab m name "useComponent" st = .ok st' := by
  unfold useComponentCycle at h
  cases hr : useComponentRender m name st with
  | error e => rw [hr] at h; exact Except.noConfusion h
  | ok rv =>
    rw [hr] at h
    cases hcp : commitPhase ftab m name "useComponent" st with
    | error e => rw [hcp] at h; exact Except.noConfusion h
    | ok st2 =>
      rw [hcp] at h
      simp only [Except.ok.injEq, Prod.mk.injEq] at h
      rw [← h.2]

/-- A successful `useHook` cycle contains a successful commit. -/
theorem useHookCycle_commit
    (ftab : FunTab) (m : DependencyMap) (name : String) (args : List JSValue)
    (st : HookState) (v : JSValue) (st' : HookState)
    (h : useHookCycle ftab m name args st = .ok (v, st')) :
    commitPhase ftab m name "useHook" st = .ok st' := by
  unfold useHookCycle at h
  cases hr : useHookRender ftab m name args st with
  | error e => rw [hr] at h; exact Except.noConfusion h
  | ok rv =>
    rw [hr] at h
    cases hcp : commitPhase ftab m name "useHook" st with
    | error e => rw [hcp] at h; exact Except.noConfusion h
    | ok st2 =>
      rw [hcp] at h
      simp only [Except.ok.injEq, Prod.mk.injEq] at h
      rw [← h.2]

/-- Provenance of logged loads through one resolver request. -/
theorem runCall_loadLog
    (ftab : FunTab) (m : DependencyMap) (c : ResolverCall) (st st' : HookState)
    (v : JSValue)
    (h : runCall ftab m c st = .ok (v, st')) :
    ∀ f ∈ st'.loadLog, f ∈ st.loadLog ∨
      (hasKey m (ResolverCall.keyName c) = true ∧
        jsGetProp "load" (mapGet m (ResolverCall.keyName c)) = .ok f) := by
  cases c with
  | depCall n =>
    exact commitPhase_loadLog ftab m n "useDependency" st st'
      (useDependencyCycle_commit ftab m n st v st' h)
  | compCall n =>
    exact commitPhase_loadLog ftab m n "useComponent" st st'
      (useComponentCycle_commit ftab m n st v st' h)
  | hookCall n args =>
    exact commitPhase_loadLog ftab m n "useHook" st st'
      (useHookCycle_commit ftab m n args st v st' h)

/-- Provenance of logged loads through a request sequence. -/
theorem runCalls_loadLog
    (ftab : FunTab) (m : DependencyMap) (cs : List ResolverCall) (st st' : HookState)
    (h : runCalls ftab m cs st = .ok st') :
    ∀ f ∈ st'.loadLog, f ∈ st.loadLog ∨
      ∃ c ∈ cs, hasKey m (ResolverCall.keyName c) = true ∧
        jsGetProp "load" (mapGet m (ResolverCall.keyName c)) = .ok f := by
  induction cs generalizing st with
  | nil =>
    intro f hf
    unfold runCalls at h
    injection h with h2
    subst h2
    exact Or.inl hf
  | cons c cs ih =>
    intro f hf
    unfold runCalls at h
    cases hrc : runCall ftab m c st with
    | error e => rw [hrc] at h; exact Except.noConfusion h
    | ok p =>
      obtain ⟨v, st2⟩ := p
      rw [hrc] at h
      rcases ih st2 h f hf with h1 | ⟨c2, hc2, hk2, hl2⟩
      · rcases runCall_loadLog ftab m c st st2 v hrc f h1 with h3 | ⟨hk3, hl3⟩
        · exact Or.inl h3
        · exact Or.inr ⟨c, List.mem_cons_self c cs, hk3, hl3⟩
      · exact Or.inr ⟨c2, List.mem_cons_of_mem c hc2, hk2, hl2⟩

/-- Claim C7: across any sequence of resolver requests starting from a fresh
hook state, a lazy descriptor registered under a key that is never passed to
any entry point — and whose `load` member is not shared with any requested
key's entry — never has its `load` invoked. -/
theorem unrequested_descriptor_never_loaded
    (ftab : FunTab) (m : DependencyMap) (cs : List ResolverCall) (st' : HookState)
    (k : String) (f : JSValue)
    (hrun : runCalls ftab m cs HookState.init = .ok st')
    (_hk : hasKey m k = true)
    (_hload : jsGetProp "load" (mapGet m k) = .ok f)
    (_hnever : ∀ c ∈ cs, ResolverCall.keyName c ≠ k)
    (halias : ∀ c ∈ cs,
      jsGetProp "load" (mapGet m (ResolverCall.keyName c)) ≠ Except.ok f) :
    f ∉ st'.loadLog := by
  intro hmem
  rcases runCalls_loadLog ftab m cs HookState.init st' hrun f hmem
    with h | ⟨c, hc, _, hl⟩
  · simp [HookState.init] at h
  · exact halias c hc hl

/-- Witness for C7: requesting only `a` never invokes the load of `b`. -/
theorem unrequested_descriptor_never_loaded_witness :
    runCalls (fun _ _ => .ok (.vnum 1))
        [("a", .vobj 0 [("load", .vfun 1)]), ("b", .vobj 1 [("load", .vfun 2)])]
        [.depCall "a"] HookState.init =
      .ok ⟨.vnum 1, some (.vobj 0 [("load", .vfun 1)]), [], [.vfun 1]⟩ ∧
    JSValue.vfun 2 ∉
      (HookState.mk (.vnum 1) (some (.vobj 0 [("load", .vfun 1)])) []
        [.vfun 1]).loadLog :=
  ⟨rfl,
   unrequested_descriptor_never_loaded (fun _ _ => .ok (.vnum 1))
     [("a", .vobj 0 [("load", .vfun 1)]), ("b", .vobj 1 [("load", .vfun 2)])]
     [.depCall "a"]
     ⟨.vnum 1, some (.vobj 0 [("load", .vfun 1)]), [], [.vfun 1]⟩ "b" (.vfun 2)
     rfl rfl rfl
     (by
       intro c hc
       rw [List.mem_singleton] at hc
       subst hc
       simp [ResolverCall.keyName])
     (by
       intro c hc
       rw [List.mem_singleton] at hc
       subst hc
       intro hbad
       have hval : jsGetProp "load"
           (mapGet [("a", .vobj 0 [("load", .vfun 1)]),
             ("b", .vobj 1 [("load", .vfun 2)])]
             (ResolverCall.keyName (.depCall "a"))) = .ok (.vfun 1) := rfl
       rw [hval] at hbad
       simp at hbad)⟩
